import Mathlib

/-
Verification of the digital-wallet ledger (Projeto Carteira Digital).

The development shallowly embeds the wallet service and its repository
layer: the database tables (carteira, moeda, saldo_carteira,
deposito_saque, conversao, transferencia) become lists inside a `Banco`
state, the repository methods become pure functions on that state, and
the service methods (`depositar`, `sacar`, `converter`, `transferir`)
become state-passing functions returning `Except Erro recibo × Banco`.

Monetary values are modelled as exact rationals (`ℚ`).  SHA-256 hashing
is modelled as an abstract function parameter `hash : String → String`
(the service only ever compares `hash providedKey` with the stored
hash).  The external Coinbase spot-price lookup is modelled as a
function parameter returning `Option ℚ`, `none` standing for any of its
failure modes.  Environment-configured fee rates are explicit
parameters, with the source defaults recorded as named constants.
-/

namespace CarteiraDigital

/-- Row of the `carteira` table: address, status ("ATIVA"/"BLOQUEADA")
and the stored SHA-256 hash of the private key. -/
structure Carteira where
  endereco_carteira : String
  status : String
  hash_chave_privada : String
deriving DecidableEq, Repr

/-- Row of the `deposito_saque` ledger: one immutable movement
(tipo "DEPOSITO" or "SAQUE"). -/
structure Movimento where
  id_movimento : Nat
  endereco_carteira : String
  id_moeda : Nat
  tipo : String
  valor : ℚ
  taxa_valor : ℚ
deriving DecidableEq, Repr

/-- Row of the `conversao` ledger. -/
structure Conversao where
  id_conversao : Nat
  endereco_carteira : String
  id_moeda_origem : Nat
  id_moeda_destino : Nat
  valor_origem : ℚ
  valor_destino : ℚ
  taxa_percentual : ℚ
  taxa_valor : ℚ
  cotacao_utilizada : ℚ
deriving DecidableEq, Repr

/-- Row of the `transferencia` ledger. -/
structure Transferencia where
  id_transferencia : Nat
  endereco_origem : String
  endereco_destino : String
  id_moeda : Nat
  valor : ℚ
  taxa_valor : ℚ
deriving DecidableEq, Repr

/-- The whole persisted state: wallet table, currency reference table
(code → id), balance table keyed by (address, currency id), the three
append-only ledgers, and the AUTO_INCREMENT counters of those ledgers. -/
structure Banco where
  carteiras : List Carteira
  moedas : List (String × Nat)
  saldos : List ((String × Nat) × ℚ)
  movimentos : List Movimento
  conversoes : List Conversao
  transferencias : List Transferencia
  prox_id_movimento : Nat
  prox_id_conversao : Nat
  prox_id_transferencia : Nat
deriving DecidableEq, Repr

/-- First wallet row matching an address (`SELECT ... WHERE
endereco_carteira = :endereco ... first()`). -/
def achar_carteira : List Carteira → String → Option Carteira
  | [], _ => none
  | c :: rest, endereco =>
      if c.endereco_carteira = endereco then some c else achar_carteira rest endereco

/-- `CarteiraRepository.buscar_por_endereco`. -/
def buscar_por_endereco (st : Banco) (endereco : String) : Option Carteira :=
  achar_carteira st.carteiras endereco

/-- Lookup in the `moeda` reference table (`SELECT id_moeda FROM moeda
WHERE codigo = :codigo`). -/
def achar_moeda : List (String × Nat) → String → Option Nat
  | [], _ => none
  | m :: rest, codigo => if m.1 = codigo then some m.2 else achar_moeda rest codigo

/-- `CarteiraRepository.buscar_id_moeda`. -/
def buscar_id_moeda (st : Banco) (codigo : String) : Option Nat :=
  achar_moeda st.moedas codigo

/-- The service guards `if not id_moeda` use Python truthiness, so a
missing row and a row whose id is the falsy integer 0 are both treated
as an invalid currency.  This wrapper folds that check into the
lookup. -/
def resolver_moeda (st : Banco) (codigo : String) : Option Nat :=
  match buscar_id_moeda st codigo with
  | none => none
  | some n => if n = 0 then none else some n

/-- Balance of one (address, currency) key, 0 when the row is absent
(`CarteiraRepository.buscar_saldo_especifico`). -/
def lookup_saldo : List ((String × Nat) × ℚ) → (String × Nat) → ℚ
  | [], _ => 0
  | p :: rest, chave => if p.1 = chave then p.2 else lookup_saldo rest chave

/-- `CarteiraRepository.buscar_saldo_especifico` on the state. -/
def buscar_saldo_especifico (st : Banco) (endereco : String) (id_moeda : Nat) : ℚ :=
  lookup_saldo st.saldos (endereco, id_moeda)

/-- Does a balance row with this key exist. -/
def tem_chave : List ((String × Nat) × ℚ) → (String × Nat) → Bool
  | [], _ => false
  | p :: rest, chave => p.1 = chave || tem_chave rest chave

/-- `UPDATE saldo_carteira SET saldo = saldo + :delta WHERE ...`: adds
`delta` to every row with the given key and silently changes nothing
when no row matches.  The debiting statements of the source use this
with a negative delta. -/
def update_saldo : List ((String × Nat) × ℚ) → (String × Nat) → ℚ → List ((String × Nat) × ℚ)
  | [], _, _ => []
  | p :: rest, chave, delta =>
      if p.1 = chave then (p.1, p.2 + delta) :: update_saldo rest chave delta
      else p :: update_saldo rest chave delta

/-- `INSERT ... ON DUPLICATE KEY UPDATE saldo = saldo + :valor`: adds
to the existing row, or appends a new row holding `valor`. -/
def upsert_saldo (saldos : List ((String × Nat) × ℚ)) (chave : String × Nat) (valor : ℚ) :
    List ((String × Nat) × ℚ) :=
  if tem_chave saldos chave then update_saldo saldos chave valor
  else saldos ++ [(chave, valor)]

/-- `CarteiraRepository.realizar_deposito`: insert the movement row
(fee 0) and upsert the balance, returning the new row id. -/
def realizar_deposito (st : Banco) (endereco : String) (id_moeda : Nat) (valor : ℚ) :
    Nat × Banco :=
  let id_mov := st.prox_id_movimento
  let mov : Movimento := ⟨id_mov, endereco, id_moeda, "DEPOSITO", valor, 0⟩
  (id_mov,
   { st with
     movimentos := st.movimentos ++ [mov]
     prox_id_movimento := id_mov + 1
     saldos := upsert_saldo st.saldos (endereco, id_moeda) valor })

/-- `CarteiraRepository.realizar_saque`: insert the movement row and
run `UPDATE saldo_carteira SET saldo = saldo - :total` (a plain update:
when no balance row exists nothing changes). -/
def realizar_saque (st : Banco) (endereco : String) (id_moeda : Nat) (valor taxa : ℚ) :
    Nat × Banco :=
  let total_debito := valor + taxa
  let id_mov := st.prox_id_movimento
  let mov : Movimento := ⟨id_mov, endereco, id_moeda, "SAQUE", valor, taxa⟩
  (id_mov,
   { st with
     movimentos := st.movimentos ++ [mov]
     prox_id_movimento := id_mov + 1
     saldos := update_saldo st.saldos (endereco, id_moeda) (-total_debito) })

/-- `CarteiraRepository.realizar_conversao`: insert the conversion row,
debit the source balance by `valor_origem + taxa_valor` (plain update),
then upsert the destination balance by `valor_destino`. -/
def realizar_conversao (st : Banco) (endereco : String) (id_origem id_destino : Nat)
    (valor_origem valor_destino taxa_valor taxa_percentual cotacao : ℚ) : Nat × Banco :=
  let total_debito := valor_origem + taxa_valor
  let id_conv := st.prox_id_conversao
  let conv : Conversao :=
    ⟨id_conv, endereco, id_origem, id_destino, valor_origem, valor_destino,
     taxa_percentual, taxa_valor, cotacao⟩
  let saldos1 := update_saldo st.saldos (endereco, id_origem) (-total_debito)
  let saldos2 := upsert_saldo saldos1 (endereco, id_destino) valor_destino
  (id_conv,
   { st with
     conversoes := st.conversoes ++ [conv]
     prox_id_conversao := id_conv + 1
     saldos := saldos2 })

/-- `CarteiraRepository.realizar_transferencia`: insert the transfer
row, debit the source balance by `valor + taxa` (plain update), then
upsert the destination balance by `valor`. -/
def realizar_transferencia (st : Banco) (end_origem end_destino : String)
    (id_moeda : Nat) (valor taxa : ℚ) : Nat × Banco :=
  let total_debito := valor + taxa
  let id_transf := st.prox_id_transferencia
  let t : Transferencia := ⟨id_transf, end_origem, end_destino, id_moeda, valor, taxa⟩
  let saldos1 := update_saldo st.saldos (end_origem, id_moeda) (-total_debito)
  let saldos2 := upsert_saldo saldos1 (end_destino, id_moeda) valor
  (id_transf,
   { st with
     transferencias := st.transferencias ++ [t]
     prox_id_transferencia := id_transf + 1
     saldos := saldos2 })

/-- Request body of a deposit. -/
structure OperacaoDeposito where
  codigo_moeda : String
  valor : ℚ
deriving DecidableEq, Repr

/-- Request body of a withdrawal. -/
structure OperacaoSaque where
  codigo_moeda : String
  valor : ℚ
  chave_privada : String
deriving DecidableEq, Repr

/-- Request body of a conversion. -/
structure OperacaoConversao where
  moeda_origem : String
  moeda_destino : String
  valor : ℚ
  chave_privada : String
deriving DecidableEq, Repr

/-- Request body of a transfer. -/
structure OperacaoTransferencia where
  endereco_destino : String
  codigo_moeda : String
  valor : ℚ
  chave_privada : String
deriving DecidableEq, Repr

/-- Receipt of a deposit or withdrawal. -/
structure ReciboMovimentacao where
  id_movimento : Nat
  tipo : String
  valor : ℚ
  taxa : ℚ
  saldo_atual : ℚ
deriving DecidableEq, Repr

/-- Receipt of a conversion. -/
structure ReciboConversao where
  id_conversao : Nat
  moeda_origem : String
  moeda_destino : String
  valor_convertido : ℚ
  valor_recebido : ℚ
  taxa_paga : ℚ
  cotacao : ℚ
deriving DecidableEq, Repr

/-- Receipt of a transfer. -/
structure ReciboTransferencia where
  id_transferencia : Nat
  endereco_origem : String
  endereco_destino : String
  moeda : String
  valor_transferido : ℚ
  taxa_paga : ℚ
deriving DecidableEq, Repr

/-- The `ValueError`s raised by `CarteiraService`, one constructor per
distinct message. -/
inductive Erro where
  /-- "Carteira não encontrada" / "Carteira de origem não encontrada" -/
  | carteiraNaoEncontrada
  /-- "Chave privada inválida!" -/
  | chaveInvalida
  /-- "Moeda ... inválida" / "Moeda de origem ou destino inválida" -/
  | moedaInvalida
  /-- "Erro ao obter cotação." (any quote-lookup failure) -/
  | erroCotacao
  /-- "Saldo insuficiente ..." -/
  | saldoInsuficiente
  /-- "Não é possível transferir para a própria carteira." -/
  | transferenciaPropria
  /-- "Carteira de destino não encontrada" -/
  | destinoNaoEncontrado
  /-- "Carteira de destino está bloqueada/inativa" -/
  | destinoBloqueado
deriving DecidableEq, Repr

/-- Default `TAXA_SAQUE_PERCENTUAL`. -/
def TAXA_SAQUE_PADRAO : ℚ := 1 / 100

/-- Default `TAXA_CONVERSAO_PERCENTUAL`. -/
def TAXA_CONVERSAO_PADRAO : ℚ := 2 / 100

/-- Default `TAXA_TRANSFERENCIA_PERCENTUAL`. -/
def TAXA_TRANSFERENCIA_PADRAO : ℚ := 1 / 100

/-- `CarteiraService.depositar`: resolve the currency (the only check),
record the movement, upsert the balance, read the balance back. -/
def depositar (st : Banco) (endereco : String) (dados : OperacaoDeposito) :
    Except Erro ReciboMovimentacao × Banco :=
  match resolver_moeda st dados.codigo_moeda with
  | none => (.error .moedaInvalida, st)
  | some id_moeda =>
    let r := realizar_deposito st endereco id_moeda dados.valor
    let novo_saldo := buscar_saldo_especifico r.2 endereco id_moeda
    (.ok ⟨r.1, "DEPOSITO", dados.valor, 0, novo_saldo⟩, r.2)

/-- `CarteiraService.sacar`: find the wallet, verify the key hash,
resolve the currency, compute fee `valor * taxa_percentual`, check
`saldo_atual < total_necessario`, then debit and read back. -/
def sacar (hash : String → String) (taxa_percentual : ℚ) (st : Banco)
    (endereco : String) (dados : OperacaoSaque) :
    Except Erro ReciboMovimentacao × Banco :=
  match buscar_por_endereco st endereco with
  | none => (.error .carteiraNaoEncontrada, st)
  | some carteira_row =>
    if carteira_row.hash_chave_privada ≠ hash dados.chave_privada then
      (.error .chaveInvalida, st)
    else
      match resolver_moeda st dados.codigo_moeda with
      | none => (.error .moedaInvalida, st)
      | some id_moeda =>
        let taxa_valor := dados.valor * taxa_percentual
        let total_necessario := dados.valor + taxa_valor
        let saldo_atual := buscar_saldo_especifico st endereco id_moeda
        if saldo_atual < total_necessario then
          (.error .saldoInsuficiente, st)
        else
          let r := realizar_saque st endereco id_moeda dados.valor taxa_valor
          let novo_saldo := buscar_saldo_especifico r.2 endereco id_moeda
          (.ok ⟨r.1, "SAQUE", dados.valor, taxa_valor, novo_saldo⟩, r.2)

/-- `CarteiraService.converter`: find the wallet, verify the key hash,
resolve both currencies, fetch the spot quote (`cotacao?`, `none`
collapsing every lookup failure), compute fee and destination amount,
check the source balance, then apply the conversion. -/
def converter (hash : String → String) (cotacao? : String → String → Option ℚ)
    (taxa_percentual : ℚ) (st : Banco) (endereco : String) (dados : OperacaoConversao) :
    Except Erro ReciboConversao × Banco :=
  match buscar_por_endereco st endereco with
  | none => (.error .carteiraNaoEncontrada, st)
  | some carteira_row =>
    if carteira_row.hash_chave_privada ≠ hash dados.chave_privada then
      (.error .chaveInvalida, st)
    else
      match resolver_moeda st dados.moeda_origem, resolver_moeda st dados.moeda_destino with
      | some id_origem, some id_destino =>
        match cotacao? dados.moeda_origem.toUpper dados.moeda_destino.toUpper with
        | none => (.error .erroCotacao, st)
        | some cotacao =>
          let taxa_valor := dados.valor * taxa_percentual
          let total_debito := dados.valor + taxa_valor
          let valor_destino := dados.valor * cotacao
          let saldo_origem := buscar_saldo_especifico st endereco id_origem
          if saldo_origem < total_debito then
            (.error .saldoInsuficiente, st)
          else
            let r := realizar_conversao st endereco id_origem id_destino dados.valor
              valor_destino taxa_valor taxa_percentual cotacao
            (.ok ⟨r.1, dados.moeda_origem, dados.moeda_destino, dados.valor,
                  valor_destino, taxa_valor, cotacao⟩, r.2)
      | _, _ => (.error .moedaInvalida, st)

/-- `CarteiraService.transferir`: find the source wallet, verify the
key hash, reject self-transfer, find the destination wallet, require
its status to be "ATIVA", resolve the currency, check the source
balance, then apply the transfer. -/
def transferir (hash : String → String) (taxa_percentual : ℚ) (st : Banco)
    (endereco_origem : String) (dados : OperacaoTransferencia) :
    Except Erro ReciboTransferencia × Banco :=
  match buscar_por_endereco st endereco_origem with
  | none => (.error .carteiraNaoEncontrada, st)
  | some origem_row =>
    if origem_row.hash_chave_privada ≠ hash dados.chave_privada then
      (.error .chaveInvalida, st)
    else if endereco_origem = dados.endereco_destino then
      (.error .transferenciaPropria, st)
    else
      match buscar_por_endereco st dados.endereco_destino with
      | none => (.error .destinoNaoEncontrado, st)
      | some destino_row =>
        if destino_row.status ≠ "ATIVA" then
          (.error .destinoBloqueado, st)
        else
          match resolver_moeda st dados.codigo_moeda with
          | none => (.error .moedaInvalida, st)
          | some id_moeda =>
            let taxa_valor := dados.valor * taxa_percentual
            let total_debito := dados.valor + taxa_valor
            let saldo_origem := buscar_saldo_especifico st endereco_origem id_moeda
            if saldo_origem < total_debito then
              (.error .saldoInsuficiente, st)
            else
              let r := realizar_transferencia st endereco_origem dados.endereco_destino
                id_moeda dados.valor taxa_valor
              (.ok ⟨r.1, endereco_origem, dados.endereco_destino, dados.codigo_moeda,
                    dados.valor, taxa_valor⟩, r.2)

/-- Keys of the balance table are pairwise distinct (the composite
primary key of `saldo_carteira`); every state produced by the schema
satisfies this. -/
def chaves_unicas : List ((String × Nat) × ℚ) → Bool
  | [] => true
  | p :: rest => !tem_chave rest p.1 && chaves_unicas rest

theorem update_saldo_of_nao_tem (s : List ((String × Nat) × ℚ)) (k : String × Nat) (d : ℚ)
    (h : tem_chave s k = false) : update_saldo s k d = s := by
  induction s with
  | nil => rfl
  | cons p rest ih =>
    simp only [tem_chave, Bool.or_eq_false_iff, decide_eq_false_iff_not] at h
    simp only [update_saldo, if_neg h.1, ih h.2]

theorem lookup_update_saldo_tem (s : List ((String × Nat) × ℚ)) (k : String × Nat) (d : ℚ)
    (h : tem_chave s k = true) :
    lookup_saldo (update_saldo s k d) k = lookup_saldo s k + d := by
  induction s with
  | nil => simp [tem_chave] at h
  | cons p rest ih =>
    by_cases hpk : p.1 = k
    · simp [update_saldo, lookup_saldo, hpk]
    · simp only [tem_chave, Bool.or_eq_true, decide_eq_true_eq] at h
      rcases h with h | h
      · exact absurd h hpk
      · simp [update_saldo, lookup_saldo, hpk, ih h]

theorem lookup_update_saldo_ne (s : List ((String × Nat) × ℚ)) (k k' : String × Nat) (d : ℚ)
    (h : k' ≠ k) : lookup_saldo (update_saldo s k d) k' = lookup_saldo s k' := by
  have hkk' : k ≠ k' := fun he => h he.symm
  induction s with
  | nil => rfl
  | cons p rest ih =>
    by_cases hpk : p.1 = k
    · simp [update_saldo, lookup_saldo, hpk, hkk', ih]
    · simp [update_saldo, lookup_saldo, hpk, ih]

theorem lookup_saldo_of_nao_tem (s : List ((String × Nat) × ℚ)) (k : String × Nat)
    (h : tem_chave s k = false) : lookup_saldo s k = 0 := by
  induction s with
  | nil => rfl
  | cons p rest ih =>
    simp only [tem_chave, Bool.or_eq_false_iff, decide_eq_false_iff_not] at h
    simp [lookup_saldo, h.1, ih h.2]

theorem lookup_saldo_append (s t : List ((String × Nat) × ℚ)) (k : String × Nat) :
    lookup_saldo (s ++ t) k =
      if tem_chave s k then lookup_saldo s k else lookup_saldo t k := by
  induction s with
  | nil => simp [lookup_saldo, tem_chave]
  | cons p rest ih =>
    by_cases hpk : p.1 = k
    · simp [lookup_saldo, tem_chave, hpk]
    · simp [lookup_saldo, tem_chave, hpk, ih]

theorem lookup_upsert_saldo_self (s : List ((String × Nat) × ℚ)) (k : String × Nat) (v : ℚ) :
    lookup_saldo (upsert_saldo s k v) k = lookup_saldo s k + v := by
  unfold upsert_saldo
  by_cases h : tem_chave s k
  · simp [h, lookup_update_saldo_tem s k v h]
  · simp only [Bool.not_eq_true] at h
    simp [h, lookup_saldo_append, lookup_saldo_of_nao_tem s k h, lookup_saldo]

theorem lookup_upsert_saldo_ne (s : List ((String × Nat) × ℚ)) (k k' : String × Nat) (v : ℚ)
    (h : k' ≠ k) : lookup_saldo (upsert_saldo s k v) k' = lookup_saldo s k' := by
  unfold upsert_saldo
  by_cases ht : tem_chave s k
  · simp [ht, lookup_update_saldo_ne s k k' v h]
  · simp only [Bool.not_eq_true] at ht
    rw [if_neg (by simp [ht])]
    rw [lookup_saldo_append]
    by_cases ht' : tem_chave s k'
    · simp [ht']
    · simp only [Bool.not_eq_true] at ht'
      have hkk' : k ≠ k' := fun he => h he.symm
      simp [ht', lookup_saldo, hkk', lookup_saldo_of_nao_tem s k' ht']

theorem lookup_saldo_nonneg (s : List ((String × Nat) × ℚ)) (h : ∀ p ∈ s, 0 ≤ p.2)
    (k : String × Nat) : 0 ≤ lookup_saldo s k := by
  induction s with
  | nil => exact le_refl 0
  | cons p rest ih =>
    by_cases hpk : p.1 = k
    · simpa [lookup_saldo, hpk] using h p (by simp)
    · simp only [lookup_saldo, if_neg hpk]
      exact ih fun q hq => h q (List.mem_cons_of_mem _ hq)

theorem nonneg_update_debito (s : List ((String × Nat) × ℚ)) (k : String × Nat) (total : ℚ)
    (hu : chaves_unicas s = true) (h : ∀ p ∈ s, 0 ≤ p.2)
    (hsuf : total ≤ lookup_saldo s k) :
    ∀ q ∈ update_saldo s k (-total), 0 ≤ q.2 := by
  induction s with
  | nil => intro q hq; simp [update_saldo] at hq
  | cons p rest ih =>
    simp only [chaves_unicas, Bool.and_eq_true, Bool.not_eq_true'] at hu
    intro q hq
    by_cases hpk : p.1 = k
    · rw [update_saldo, if_pos hpk, update_saldo_of_nao_tem rest k (-total) (hpk ▸ hu.1)] at hq
      rcases List.mem_cons.mp hq with rfl | hq'
      · have hl : lookup_saldo (p :: rest) k = p.2 := by simp [lookup_saldo, hpk]
        rw [hl] at hsuf
        simpa using by linarith
      · exact h q (List.mem_cons_of_mem _ hq')
    · rw [update_saldo, if_neg hpk] at hq
      rcases List.mem_cons.mp hq with rfl | hq'
      · exact h q (List.mem_cons_self _ _)
      · have hl : lookup_saldo (p :: rest) k = lookup_saldo rest k := by
          simp [lookup_saldo, hpk]
        rw [hl] at hsuf
        exact ih hu.2 (fun r hr => h r (List.mem_cons_of_mem _ hr)) hsuf q hq'

theorem nonneg_update_credito (s : List ((String × Nat) × ℚ)) (k : String × Nat) (d : ℚ)
    (h : ∀ p ∈ s, 0 ≤ p.2) (hd : 0 ≤ d) :
    ∀ q ∈ update_saldo s k d, 0 ≤ q.2 := by
  induction s with
  | nil => intro q hq; simp [update_saldo] at hq
  | cons p rest ih =>
    intro q hq
    by_cases hpk : p.1 = k
    · rw [update_saldo, if_pos hpk] at hq
      rcases List.mem_cons.mp hq with rfl | hq'
      · have hp := h p (List.mem_cons_self _ _)
        simpa using by linarith
      · exact ih (fun r hr => h r (List.mem_cons_of_mem _ hr)) q hq'
    · rw [update_saldo, if_neg hpk] at hq
      rcases List.mem_cons.mp hq with rfl | hq'
      · exact h q (List.mem_cons_self _ _)
      · exact ih (fun r hr => h r (List.mem_cons_of_mem _ hr)) q hq'

theorem nonneg_upsert (s : List ((String × Nat) × ℚ)) (k : String × Nat) (v : ℚ)
    (h : ∀ p ∈ s, 0 ≤ p.2) (hv : 0 ≤ v) :
    ∀ q ∈ upsert_saldo s k v, 0 ≤ q.2 := by
  intro q hq
  unfold upsert_saldo at hq
  by_cases ht : tem_chave s k
  · rw [if_pos (by simp [ht])] at hq
    exact nonneg_update_credito s k v h hv q hq
  · simp only [Bool.not_eq_true] at ht
    rw [if_neg (by simp [ht])] at hq
    rcases List.mem_append.mp hq with hq' | hq'
    · exact h q hq'
    · rcases List.mem_singleton.mp hq' with rfl
      simpa using hv

/-- A concrete stand-in for the SHA-256 parameter, used in concrete
instantiations: the stored hash of key `k` is `"h-" ++ k`. -/
def hashConcat (s : String) : String := "h-" ++ s

/-- A concrete quote function quoting 9/10 for every pair. -/
def cotacaoFixa : String → String → Option ℚ := fun _ _ => some (9 / 10)

/-- A concrete quote function for which every lookup fails. -/
def cotacaoFalha : String → String → Option ℚ := fun _ _ => none

/-- Concrete state: wallets w1, w2 active and w3 blocked (keys k1, k2,
k3), currencies USD → 1 and EUR → 2, w1 and w3 each holding 100 USD. -/
def stBase : Banco :=
  { carteiras :=
      [⟨"w1", "ATIVA", "h-k1"⟩, ⟨"w2", "ATIVA", "h-k2"⟩, ⟨"w3", "BLOQUEADA", "h-k3"⟩]
    moedas := [("USD", 1), ("EUR", 2)]
    saldos := [(("w1", 1), 100), (("w3", 1), 100)]
    movimentos := []
    conversoes := []
    transferencias := []
    prox_id_movimento := 1
    prox_id_conversao := 1
    prox_id_transferencia := 1 }

/-- Concrete state like `stBase` but with an empty balance table. -/
def stSemSaldo : Banco :=
  { carteiras :=
      [⟨"w1", "ATIVA", "h-k1"⟩, ⟨"w2", "ATIVA", "h-k2"⟩, ⟨"w3", "BLOQUEADA", "h-k3"⟩]
    moedas := [("USD", 1), ("EUR", 2)]
    saldos := []
    movimentos := []
    conversoes := []
    transferencias := []
    prox_id_movimento := 1
    prox_id_conversao := 1
    prox_id_transferencia := 1 }

/-- C1 (amended): with the wallet found, the key verified and the
currency resolved, `sacar` succeeds iff the stored balance is at least
`valor * (1 + taxa)`; on success, provided a balance row for the
(wallet, currency) key exists, the balance decreases by exactly
`valor * (1 + taxa)`; on InsufficientFunds nothing changes. -/
theorem sacar_saque_correto (hash : String → String) (taxa : ℚ) (st : Banco)
    (endereco : String) (dados : OperacaoSaque) (c : Carteira) (id_moeda : Nat)
    (hw : buscar_por_endereco st endereco = some c)
    (hk : c.hash_chave_privada = hash dados.chave_privada)
    (hm : resolver_moeda st dados.codigo_moeda = some id_moeda) :
    ((sacar hash taxa st endereco dados).1.isOk = true ↔
      dados.valor * (1 + taxa) ≤ buscar_saldo_especifico st endereco id_moeda) ∧
    (dados.valor * (1 + taxa) ≤ buscar_saldo_especifico st endereco id_moeda →
      tem_chave st.saldos (endereco, id_moeda) = true →
      buscar_saldo_especifico (sacar hash taxa st endereco dados).2 endereco id_moeda =
        buscar_saldo_especifico st endereco id_moeda - dados.valor * (1 + taxa)) ∧
    (buscar_saldo_especifico st endereco id_moeda < dados.valor * (1 + taxa) →
      sacar hash taxa st endereco dados = (.error .saldoInsuficiente, st)) := by
  have hform : dados.valor + dados.valor * taxa = dados.valor * (1 + taxa) := by ring
  simp only [sacar, hw, hk, ne_eq, not_true_eq_false, if_false, hm, hform]
  by_cases hlt :
      buscar_saldo_especifico st endereco id_moeda < dados.valor * (1 + taxa)
  · rw [if_pos hlt]
    refine ⟨?_, ?_, fun _ => rfl⟩
    · simp [Except.isOk, Except.toBool, not_le.mpr hlt]
    · intro hsuf _
      exact absurd hlt (not_lt.mpr hsuf)
  · rw [if_neg hlt]
    refine ⟨?_, ?_, fun h => absurd h hlt⟩
    · simp [Except.isOk, Except.toBool, not_lt.mp hlt]
    · intro _ htem
      show buscar_saldo_especifico (realizar_saque st endereco id_moeda dados.valor
        (dados.valor * taxa)).2 endereco id_moeda = _
      simp only [realizar_saque, buscar_saldo_especifico]
      rw [lookup_update_saldo_tem _ _ _ htem]
      ring

/-- C1 counterexample: with no stored balance row for (w1, USD), a
withdrawal of −10 succeeds (the stored balance 0 exceeds the negative
required total) yet the balance does not change by
`valor * (1 + taxa)`: it stays 0 instead of becoming 10.1. -/
theorem sacar_decresce_contraexemplo :
    (sacar hashConcat TAXA_SAQUE_PADRAO stSemSaldo "w1" ⟨"USD", -10, "k1"⟩).1.isOk = true ∧
    buscar_saldo_especifico
      (sacar hashConcat TAXA_SAQUE_PADRAO stSemSaldo "w1" ⟨"USD", -10, "k1"⟩).2 "w1" 1 = 0 ∧
    (0 : ℚ) ≠ 0 - (-10) * (1 + TAXA_SAQUE_PADRAO) := by
  refine ⟨?_, ?_, by norm_num [TAXA_SAQUE_PADRAO]⟩ <;>
    (simp [sacar, stSemSaldo, hashConcat, buscar_por_endereco, achar_carteira,
      resolver_moeda, buscar_id_moeda, achar_moeda, buscar_saldo_especifico, lookup_saldo,
      realizar_saque, update_saldo, TAXA_SAQUE_PADRAO, Except.isOk, Except.toBool] ;
     norm_num [lookup_saldo])

/-- C1 witness: w1 holds 100 USD; withdrawing 10 at the default 1% fee
succeeds and leaves exactly 100 − 10 × 1.01 = 89.9. -/
theorem sacar_saque_correto_witness :
    (sacar hashConcat TAXA_SAQUE_PADRAO stBase "w1" ⟨"USD", 10, "k1"⟩).1.isOk = true ∧
    buscar_saldo_especifico
      (sacar hashConcat TAXA_SAQUE_PADRAO stBase "w1" ⟨"USD", 10, "k1"⟩).2 "w1" 1 =
      100 - 10 * (1 + TAXA_SAQUE_PADRAO) := by
  have h := sacar_saque_correto hashConcat TAXA_SAQUE_PADRAO stBase "w1" ⟨"USD", 10, "k1"⟩
    ⟨"w1", "ATIVA", "h-k1"⟩ 1 (by decide) (by decide) (by decide)
  have hsal : buscar_saldo_especifico stBase "w1" 1 = 100 := by
    simp [buscar_saldo_especifico, stBase, lookup_saldo]
  have hsuf : (10 : ℚ) * (1 + TAXA_SAQUE_PADRAO) ≤ buscar_saldo_especifico stBase "w1" 1 := by
    rw [hsal]; norm_num [TAXA_SAQUE_PADRAO]
  exact ⟨h.1.mpr hsuf, by rw [h.2.1 hsuf (by decide), hsal]⟩

/-- C2 (amended): every operation maps a state whose stored balances
are all non-negative to a state whose stored balances are all
non-negative, provided the credited amounts are non-negative: the
deposit amount, the transfer amount and (for conversions) the amount
and the quoted rate.  Withdrawals need no amount hypothesis: the
sufficiency check bounds the debit.  The balance table is assumed to
hold at most one row per (wallet, currency) key, as its composite
primary key guarantees.  Preservation fails for negative deposits. -/
theorem operacoes_preservam_saldos (hash : String → String)
    (cot : String → String → Option ℚ) (taxa : ℚ) (st : Banco) (endereco : String) :
    (∀ dados : OperacaoDeposito,
      (∀ p ∈ st.saldos, 0 ≤ p.2) → 0 ≤ dados.valor →
      ∀ p ∈ (depositar st endereco dados).2.saldos, 0 ≤ p.2) ∧
    (∀ dados : OperacaoSaque,
      chaves_unicas st.saldos = true → (∀ p ∈ st.saldos, 0 ≤ p.2) →
      ∀ p ∈ (sacar hash taxa st endereco dados).2.saldos, 0 ≤ p.2) ∧
    (∀ dados : OperacaoConversao,
      chaves_unicas st.saldos = true → (∀ p ∈ st.saldos, 0 ≤ p.2) →
      0 ≤ dados.valor → (∀ a b r, cot a b = some r → 0 ≤ r) →
      ∀ p ∈ (converter hash cot taxa st endereco dados).2.saldos, 0 ≤ p.2) ∧
    (∀ dados : OperacaoTransferencia,
      chaves_unicas st.saldos = true → (∀ p ∈ st.saldos, 0 ≤ p.2) → 0 ≤ dados.valor →
      ∀ p ∈ (transferir hash taxa st endereco dados).2.saldos, 0 ≤ p.2) := by
  refine ⟨?_, ?_, ?_, ?_⟩
  · intro dados h hv
    unfold depositar
    cases hmo : resolver_moeda st dados.codigo_moeda with
    | none => simpa using h
    | some id_moeda =>
      simp only [realizar_deposito]
      exact nonneg_upsert _ _ _ h hv
  · intro dados hu h
    unfold sacar
    cases hbw : buscar_por_endereco st endereco with
    | none => simpa using h
    | some c =>
      by_cases hk : c.hash_chave_privada ≠ hash dados.chave_privada
      · simp only [if_pos hk]; simpa using h
      · simp only [if_neg hk]
        cases hmo : resolver_moeda st dados.codigo_moeda with
        | none => simpa using h
        | some id_moeda =>
          by_cases hlt : buscar_saldo_especifico st endereco id_moeda <
              dados.valor + dados.valor * taxa
          · simp only [if_pos hlt]; simpa using h
          · simp only [if_neg hlt, realizar_saque]
            exact nonneg_update_debito _ _ _ hu h (not_lt.mp hlt)
  · intro dados hu h hv hr
    unfold converter
    cases hbw : buscar_por_endereco st endereco with
    | none => simpa using h
    | some c =>
      by_cases hk : c.hash_chave_privada ≠ hash dados.chave_privada
      · simp only [if_pos hk]; simpa using h
      · simp only [if_neg hk]
        cases hmo : resolver_moeda st dados.moeda_origem with
        | none => simpa using h
        | some id_origem =>
          cases hmd : resolver_moeda st dados.moeda_destino with
          | none => simpa using h
          | some id_destino =>
            cases hq : cot dados.moeda_origem.toUpper dados.moeda_destino.toUpper with
            | none => simpa using h
            | some cotacao =>
              by_cases hlt : buscar_saldo_especifico st endereco id_origem <
                  dados.valor + dados.valor * taxa
              · simp only [if_pos hlt]; simpa using h
              · simp only [if_neg hlt, realizar_conversao]
                exact nonneg_upsert _ _ _
                  (nonneg_update_debito _ _ _ hu h (not_lt.mp hlt))
                  (mul_nonneg hv (hr _ _ _ hq))
  · intro dados hu h hv
    unfold transferir
    cases hbw : buscar_por_endereco st endereco with
    | none => simpa using h
    | some c =>
      by_cases hk : c.hash_chave_privada ≠ hash dados.chave_privada
      · simp only [if_pos hk]; simpa using h
      · simp only [if_neg hk]
        by_cases hself : endereco = dados.endereco_destino
        · simp only [if_pos hself]; simpa using h
        · simp only [if_neg hself]
          cases hbd : buscar_por_endereco st dados.endereco_destino with
          | none => simpa using h
          | some d =>
            by_cases hst : d.status ≠ "ATIVA"
            · simp only [if_pos hst]; simpa using h
            · simp only [if_neg hst]
              cases hmo : resolver_moeda st dados.codigo_moeda with
              | none => simpa using h
              | some id_moeda =>
                by_cases hlt : buscar_saldo_especifico st endereco id_moeda <
                    dados.valor + dados.valor * taxa
                · simp only [if_pos hlt]; simpa using h
                · simp only [if_neg hlt, realizar_transferencia]
                  exact nonneg_upsert _ _ _
                    (nonneg_update_debito _ _ _ hu h (not_lt.mp hlt)) hv

/-- C2 counterexample: from the all-non-negative (empty) balance table,
a deposit of −5 in a known currency is accepted and leaves a stored
balance of −5, violating the invariant. -/
theorem deposito_negativo_quebra_invariante :
    stSemSaldo.saldos = [] ∧
    buscar_saldo_especifico (depositar stSemSaldo "w1" ⟨"USD", -5⟩).2 "w1" 1 = -5 ∧
    (-5 : ℚ) < 0 := by
  refine ⟨rfl, ?_, by norm_num⟩
  simp [depositar, stSemSaldo, resolver_moeda, buscar_id_moeda, achar_moeda,
    realizar_deposito, upsert_saldo, tem_chave, update_saldo, buscar_saldo_especifico,
    lookup_saldo]

/-- C2 witness: after depositing 5 USD into w1 from `stBase`, the
stored USD balance of w1 is still non-negative. -/
theorem operacoes_preservam_saldos_witness :
    0 ≤ buscar_saldo_especifico (depositar stBase "w1" ⟨"USD", 5⟩).2 "w1" 1 :=
  lookup_saldo_nonneg _
    ((operacoes_preservam_saldos hashConcat cotacaoFixa TAXA_SAQUE_PADRAO stBase "w1").1
      ⟨"USD", 5⟩
      (by intro p hp
          simp only [stBase, List.mem_cons, List.not_mem_nil, or_false] at hp
          rcases hp with rfl | rfl <;> norm_num)
      (by norm_num))
    ("w1", 1)

/-- C3: the code evaluated at the failing input: `depositar` performs
no positivity check, so a deposit of −5 in a known currency succeeds,
appends a DEPOSITO movement and stores the balance −5. -/
theorem depositar_aceita_valor_negativo :
    (depositar stSemSaldo "w1" ⟨"USD", -5⟩).1 =
      .ok ⟨1, "DEPOSITO", -5, 0, -5⟩ ∧
    (depositar stSemSaldo "w1" ⟨"USD", -5⟩).2.movimentos =
      [⟨1, "w1", 1, "DEPOSITO", -5, 0⟩] ∧
    (depositar stSemSaldo "w1" ⟨"USD", -5⟩).2.saldos = [(("w1", 1), -5)] := by
  refine ⟨?_, ?_, ?_⟩ <;>
    simp [depositar, stSemSaldo, resolver_moeda, buscar_id_moeda, achar_moeda,
      realizar_deposito, upsert_saldo, tem_chave, update_saldo, buscar_saldo_especifico,
      lookup_saldo]

/-- C4 (amended): a conversion whose wallet is found, key verified,
currencies resolved to two distinct ids, quote available, with a
stored balance row for the source and a sufficient source balance,
returns the receipt with fee `valor * taxa` and destination amount
`valor * cotacao`, debits the source balance by exactly
`valor * (1 + taxa)` and credits the destination balance by exactly
`valor * cotacao`. -/
theorem converter_correto (hash : String → String) (cot : String → String → Option ℚ)
    (taxa : ℚ) (st : Banco) (endereco : String) (dados : OperacaoConversao)
    (c : Carteira) (id_origem id_destino : Nat) (cotacao : ℚ)
    (hw : buscar_por_endereco st endereco = some c)
    (hk : c.hash_chave_privada = hash dados.chave_privada)
    (ho : resolver_moeda st dados.moeda_origem = some id_origem)
    (hd : resolver_moeda st dados.moeda_destino = some id_destino)
    (hq : cot dados.moeda_origem.toUpper dados.moeda_destino.toUpper = some cotacao)
    (hne : id_origem ≠ id_destino)
    (hrow : tem_chave st.saldos (endereco, id_origem) = true)
    (hsuf : dados.valor * (1 + taxa) ≤ buscar_saldo_especifico st endereco id_origem) :
    (converter hash cot taxa st endereco dados).1 =
      .ok ⟨st.prox_id_conversao, dados.moeda_origem, dados.moeda_destino, dados.valor,
           dados.valor * cotacao, dados.valor * taxa, cotacao⟩ ∧
    buscar_saldo_especifico (converter hash cot taxa st endereco dados).2 endereco id_origem =
      buscar_saldo_especifico st endereco id_origem - dados.valor * (1 + taxa) ∧
    buscar_saldo_especifico (converter hash cot taxa st endereco dados).2 endereco id_destino =
      buscar_saldo_especifico st endereco id_destino + dados.valor * cotacao := by
  have hko : ((endereco, id_origem) : String × Nat) ≠ (endereco, id_destino) := by
    simp [hne]
  have hkd : ((endereco, id_destino) : String × Nat) ≠ (endereco, id_origem) := by
    simp [Ne.symm hne]
  have hlt : ¬ (lookup_saldo st.saldos (endereco, id_origem) <
      dados.valor + dados.valor * taxa) := by
    refine not_lt.mpr ?_
    calc dados.valor + dados.valor * taxa = dados.valor * (1 + taxa) := by ring
      _ ≤ _ := hsuf
  simp only [converter, hw, hk, ne_eq, not_true_eq_false, if_false, ho, hd, hq,
    realizar_conversao, buscar_saldo_especifico, if_neg hlt]
  refine ⟨trivial, ?_, ?_⟩
  · rw [lookup_upsert_saldo_ne _ _ _ _ hko, lookup_update_saldo_tem _ _ _ hrow]
    ring
  · rw [lookup_upsert_saldo_self, lookup_update_saldo_ne _ _ _ _ hkd]

/-- C4 counterexample: two concrete runs of `converter` on which the
claim fails as stated.  First, converting 50 from USD to USD (the
service never requires distinct currencies): the single balance goes
from 100 to 100 − 51 + 45 = 94, so the "source" balance does not
decrease by 51.  Second, converting −50 from USD to EUR with no stored
source row: the run succeeds (0 ≥ −51) yet the source balance stays 0
instead of changing by −51. -/
theorem converter_contraexemplo :
    ((converter hashConcat cotacaoFixa TAXA_CONVERSAO_PADRAO stBase "w1"
        ⟨"USD", "USD", 50, "k1"⟩).1.isOk = true ∧
      buscar_saldo_especifico
        (converter hashConcat cotacaoFixa TAXA_CONVERSAO_PADRAO stBase "w1"
          ⟨"USD", "USD", 50, "k1"⟩).2 "w1" 1 = 94 ∧
      (94 : ℚ) ≠ 100 - 50 * (1 + TAXA_CONVERSAO_PADRAO)) ∧
    ((converter hashConcat cotacaoFixa TAXA_CONVERSAO_PADRAO stSemSaldo "w1"
        ⟨"USD", "EUR", -50, "k1"⟩).1.isOk = true ∧
      buscar_saldo_especifico
        (converter hashConcat cotacaoFixa TAXA_CONVERSAO_PADRAO stSemSaldo "w1"
          ⟨"USD", "EUR", -50, "k1"⟩).2 "w1" 1 = 0 ∧
      (0 : ℚ) ≠ 0 - (-50) * (1 + TAXA_CONVERSAO_PADRAO)) := by
  refine ⟨⟨?_, ?_, by norm_num [TAXA_CONVERSAO_PADRAO]⟩,
          ⟨?_, ?_, by norm_num [TAXA_CONVERSAO_PADRAO]⟩⟩ <;>
    (simp [converter, stBase, stSemSaldo, hashConcat, cotacaoFixa, buscar_por_endereco,
      achar_carteira, resolver_moeda, buscar_id_moeda, achar_moeda,
      buscar_saldo_especifico, lookup_saldo, realizar_conversao, upsert_saldo, tem_chave,
      update_saldo, TAXA_CONVERSAO_PADRAO, Except.isOk, Except.toBool] ;
     norm_num [lookup_saldo, update_saldo, upsert_saldo, tem_chave])

/-- C4 witness: the spec's example on `stBase`: converting 50 USD to
EUR at quoted rate 0.9 with the default 2% conversion fee yields fee 1,
destination amount 45, a USD debit of exactly 51 (100 → 49) and an EUR
credit of exactly 45 (0 → 45). -/
theorem converter_correto_witness :
    (converter hashConcat cotacaoFixa TAXA_CONVERSAO_PADRAO stBase "w1"
        ⟨"USD", "EUR", 50, "k1"⟩).1 =
      .ok ⟨1, "USD", "EUR", 50, 45, 1, 9 / 10⟩ ∧
    buscar_saldo_especifico
      (converter hashConcat cotacaoFixa TAXA_CONVERSAO_PADRAO stBase "w1"
        ⟨"USD", "EUR", 50, "k1"⟩).2 "w1" 1 = 49 ∧
    buscar_saldo_especifico
      (converter hashConcat cotacaoFixa TAXA_CONVERSAO_PADRAO stBase "w1"
        ⟨"USD", "EUR", 50, "k1"⟩).2 "w1" 2 = 45 := by
  have hsal : buscar_saldo_especifico stBase "w1" 1 = 100 := by
    simp [buscar_saldo_especifico, stBase, lookup_saldo]
  have hsal2 : buscar_saldo_especifico stBase "w1" 2 = 0 := by
    simp [buscar_saldo_especifico, stBase, lookup_saldo]
  have h := converter_correto hashConcat cotacaoFixa TAXA_CONVERSAO_PADRAO stBase "w1"
    ⟨"USD", "EUR", 50, "k1"⟩ ⟨"w1", "ATIVA", "h-k1"⟩ 1 2 (9 / 10)
    (by decide) (by decide) (by decide) (by decide) rfl (by decide) (by decide)
    (by rw [hsal]; norm_num [TAXA_CONVERSAO_PADRAO])
  obtain ⟨h1, h2, h3⟩ := h
  refine ⟨?_, ?_, ?_⟩
  · rw [h1]; norm_num [stBase, TAXA_CONVERSAO_PADRAO]
  · rw [h2, hsal]; norm_num [TAXA_CONVERSAO_PADRAO]
  · rw [h3, hsal2]; norm_num

/-- C5: a self-transfer always fails with the self-transfer error and
leaves the state unchanged, for every balance state; and the check is
reached only after the source wallet is found (otherwise NotFound wins)
and its key verified (otherwise the invalid-key error wins). -/
theorem transferir_auto_rejeitada (hash : String → String) (taxa : ℚ) (st : Banco)
    (endereco_origem : String) (dados : OperacaoTransferencia) :
    (buscar_por_endereco st endereco_origem = none →
      transferir hash taxa st endereco_origem dados = (.error .carteiraNaoEncontrada, st)) ∧
    (∀ c, buscar_por_endereco st endereco_origem = some c →
      c.hash_chave_privada ≠ hash dados.chave_privada →
      transferir hash taxa st endereco_origem dados = (.error .chaveInvalida, st)) ∧
    (∀ c, buscar_por_endereco st endereco_origem = some c →
      c.hash_chave_privada = hash dados.chave_privada →
      endereco_origem = dados.endereco_destino →
      transferir hash taxa st endereco_origem dados = (.error .transferenciaPropria, st)) := by
  refine ⟨fun h => by simp [transferir, h], fun c hc hk => by simp [transferir, hc, hk],
    fun c hc hk hself => by subst hself; simp [transferir, hc, hk]⟩

/-- C5 witness: concrete instantiations of the three cases: a transfer
from the unknown address ghost fails NotFound even though source equals
destination; a self-transfer with a wrong key fails on the key; a
self-transfer from w1 with the right key fails as a self-transfer, with
the state unchanged each time. -/
theorem transferir_auto_rejeitada_witness :
    transferir hashConcat TAXA_TRANSFERENCIA_PADRAO stBase "ghost"
        ⟨"ghost", "USD", 10, "k1"⟩ = (.error .carteiraNaoEncontrada, stBase) ∧
    transferir hashConcat TAXA_TRANSFERENCIA_PADRAO stBase "w1"
        ⟨"w1", "USD", 10, "bad"⟩ = (.error .chaveInvalida, stBase) ∧
    transferir hashConcat TAXA_TRANSFERENCIA_PADRAO stBase "w1"
        ⟨"w1", "USD", 10, "k1"⟩ = (.error .transferenciaPropria, stBase) := by
  refine ⟨(transferir_auto_rejeitada hashConcat TAXA_TRANSFERENCIA_PADRAO stBase "ghost"
      ⟨"ghost", "USD", 10, "k1"⟩).1 (by decide),
    (transferir_auto_rejeitada hashConcat TAXA_TRANSFERENCIA_PADRAO stBase "w1"
      ⟨"w1", "USD", 10, "bad"⟩).2.1 ⟨"w1", "ATIVA", "h-k1"⟩ (by decide) (by decide),
    (transferir_auto_rejeitada hashConcat TAXA_TRANSFERENCIA_PADRAO stBase "w1"
      ⟨"w1", "USD", 10, "k1"⟩).2.2 ⟨"w1", "ATIVA", "h-k1"⟩ (by decide) (by decide) rfl⟩

/-- C6: a transfer whose destination wallet exists with status
BLOQUEADA fails with the blocked-destination error for every balance
state, and the state is unchanged. -/
theorem transferir_destino_bloqueado (hash : String → String) (taxa : ℚ) (st : Banco)
    (endereco_origem : String) (dados : OperacaoTransferencia) (c d : Carteira)
    (hw : buscar_por_endereco st endereco_origem = some c)
    (hk : c.hash_chave_privada = hash dados.chave_privada)
    (hne : endereco_origem ≠ dados.endereco_destino)
    (hd : buscar_por_endereco st dados.endereco_destino = some d)
    (hstatus : d.status = "BLOQUEADA") :
    transferir hash taxa st endereco_origem dados = (.error .destinoBloqueado, st) := by
  simp [transferir, hw, hk, hne, hd, hstatus]

/-- C6 witness: w1 (holding 100 USD, amply sufficient) transferring 10
USD to the blocked wallet w3 fails with the blocked-destination error
and the state is unchanged. -/
theorem transferir_destino_bloqueado_witness :
    transferir hashConcat TAXA_TRANSFERENCIA_PADRAO stBase "w1"
      ⟨"w3", "USD", 10, "k1"⟩ = (.error .destinoBloqueado, stBase) :=
  transferir_destino_bloqueado hashConcat TAXA_TRANSFERENCIA_PADRAO stBase "w1"
    ⟨"w3", "USD", 10, "k1"⟩ ⟨"w1", "ATIVA", "h-k1"⟩ ⟨"w3", "BLOQUEADA", "h-k3"⟩
    (by decide) (by decide) (by decide) (by decide) rfl

/-- C7: a wallet whose status is BLOQUEADA is not prevented from
operating: deposits into it, withdrawals from it, conversions on it and
transfers out of it all succeed whenever their other preconditions
hold; the destination-ACTIVE check of `transferir` is the only status
check. -/
theorem carteira_bloqueada_opera (hash : String → String)
    (cot : String → String → Option ℚ) (taxa : ℚ) (st : Banco) (endereco : String)
    (c : Carteira) (hw : buscar_por_endereco st endereco = some c)
    (hstatus : c.status = "BLOQUEADA") :
    (∀ dados : OperacaoDeposito, ∀ id_moeda,
      resolver_moeda st dados.codigo_moeda = some id_moeda →
      (depositar st endereco dados).1.isOk = true) ∧
    (∀ dados : OperacaoSaque, ∀ id_moeda,
      c.hash_chave_privada = hash dados.chave_privada →
      resolver_moeda st dados.codigo_moeda = some id_moeda →
      dados.valor * (1 + taxa) ≤ buscar_saldo_especifico st endereco id_moeda →
      (sacar hash taxa st endereco dados).1.isOk = true) ∧
    (∀ dados : OperacaoConversao, ∀ id_origem id_destino cotacao,
      c.hash_chave_privada = hash dados.chave_privada →
      resolver_moeda st dados.moeda_origem = some id_origem →
      resolver_moeda st dados.moeda_destino = some id_destino →
      cot dados.moeda_origem.toUpper dados.moeda_destino.toUpper = some cotacao →
      dados.valor * (1 + taxa) ≤ buscar_saldo_especifico st endereco id_origem →
      (converter hash cot taxa st endereco dados).1.isOk = true) ∧
    (∀ dados : OperacaoTransferencia, ∀ id_moeda, ∀ d : Carteira,
      c.hash_chave_privada = hash dados.chave_privada →
      endereco ≠ dados.endereco_destino →
      buscar_por_endereco st dados.endereco_destino = some d →
      d.status = "ATIVA" →
      resolver_moeda st dados.codigo_moeda = some id_moeda →
      dados.valor * (1 + taxa) ≤ buscar_saldo_especifico st endereco id_moeda →
      (transferir hash taxa st endereco dados).1.isOk = true) := by
  refine ⟨?_, ?_, ?_, ?_⟩
  · intro dados id_moeda hm
    simp [depositar, hm, Except.isOk, Except.toBool]
  · intro dados id_moeda hk hm hsuf
    have hlt : ¬ (lookup_saldo st.saldos (endereco, id_moeda) <
        dados.valor + dados.valor * taxa) := by
      refine not_lt.mpr ?_
      calc dados.valor + dados.valor * taxa = dados.valor * (1 + taxa) := by ring
        _ ≤ _ := hsuf
    simp [sacar, hw, hk, hm, buscar_saldo_especifico, if_neg hlt, Except.isOk,
      Except.toBool]
  · intro dados id_origem id_destino cotacao hk ho hd hq hsuf
    have hlt : ¬ (lookup_saldo st.saldos (endereco, id_origem) <
        dados.valor + dados.valor * taxa) := by
      refine not_lt.mpr ?_
      calc dados.valor + dados.valor * taxa = dados.valor * (1 + taxa) := by ring
        _ ≤ _ := hsuf
    simp [converter, hw, hk, ho, hd, hq, buscar_saldo_especifico, if_neg hlt,
      Except.isOk, Except.toBool]
  · intro dados id_moeda d hk hne hd hst hm hsuf
    have hlt : ¬ (lookup_saldo st.saldos (endereco, id_moeda) <
        dados.valor + dados.valor * taxa) := by
      refine not_lt.mpr ?_
      calc dados.valor + dados.valor * taxa = dados.valor * (1 + taxa) := by ring
        _ ≤ _ := hsuf
    simp [transferir, hw, hk, hne, hd, hst, hm, buscar_saldo_especifico, if_neg hlt,
      Except.isOk, Except.toBool]

/-- C7 witness: on `stBase`, whose wallet w3 is BLOQUEADA and holds 100
USD, a deposit into w3, a withdrawal from w3, a conversion on w3 and a
transfer from w3 to the active w1 all succeed. -/
theorem carteira_bloqueada_opera_witness :
    (depositar stBase "w3" ⟨"USD", 5⟩).1.isOk = true ∧
    (sacar hashConcat TAXA_SAQUE_PADRAO stBase "w3" ⟨"USD", 10, "k3"⟩).1.isOk = true ∧
    (converter hashConcat cotacaoFixa TAXA_CONVERSAO_PADRAO stBase "w3"
      ⟨"USD", "EUR", 10, "k3"⟩).1.isOk = true ∧
    (transferir hashConcat TAXA_TRANSFERENCIA_PADRAO stBase "w3"
      ⟨"w1", "USD", 10, "k3"⟩).1.isOk = true := by
  have hsal : buscar_saldo_especifico stBase "w3" 1 = 100 := by
    simp [buscar_saldo_especifico, stBase, lookup_saldo]
  have h := carteira_bloqueada_opera hashConcat cotacaoFixa TAXA_SAQUE_PADRAO stBase "w3"
    ⟨"w3", "BLOQUEADA", "h-k3"⟩ (by decide) rfl
  have h2 := carteira_bloqueada_opera hashConcat cotacaoFixa TAXA_CONVERSAO_PADRAO stBase
    "w3" ⟨"w3", "BLOQUEADA", "h-k3"⟩ (by decide) rfl
  have h3 := carteira_bloqueada_opera hashConcat cotacaoFixa TAXA_TRANSFERENCIA_PADRAO
    stBase "w3" ⟨"w3", "BLOQUEADA", "h-k3"⟩ (by decide) rfl
  refine ⟨h.1 ⟨"USD", 5⟩ 1 (by decide), ?_, ?_, ?_⟩
  · exact h.2.1 ⟨"USD", 10, "k3"⟩ 1 (by decide) (by decide)
      (by rw [hsal]; norm_num [TAXA_SAQUE_PADRAO])
  · exact h2.2.2.1 ⟨"USD", "EUR", 10, "k3"⟩ 1 2 (9 / 10) (by decide) (by decide)
      (by decide) rfl (by rw [hsal]; norm_num [TAXA_CONVERSAO_PADRAO])
  · exact h3.2.2.2 ⟨"w1", "USD", 10, "k3"⟩ 1 ⟨"w1", "ATIVA", "h-k1"⟩ (by decide)
      (by decide) (by decide) rfl (by decide)
      (by rw [hsal]; norm_num [TAXA_TRANSFERENCIA_PADRAO])

/-- C8: atomicity on failure: whenever an operation returns an error,
the whole stored state (wallets, balances and all ledgers) is exactly
the input state — every raise in the service happens before the
repository write. -/
theorem falhas_preservam_estado (hash : String → String)
    (cot : String → String → Option ℚ) (taxa : ℚ) (st : Banco) (endereco : String) :
    (∀ (dados : OperacaoDeposito) (e : Erro),
      (depositar st endereco dados).1 = .error e → (depositar st endereco dados).2 = st) ∧
    (∀ (dados : OperacaoSaque) (e : Erro),
      (sacar hash taxa st endereco dados).1 = .error e →
      (sacar hash taxa st endereco dados).2 = st) ∧
    (∀ (dados : OperacaoConversao) (e : Erro),
      (converter hash cot taxa st endereco dados).1 = .error e →
      (converter hash cot taxa st endereco dados).2 = st) ∧
    (∀ (dados : OperacaoTransferencia) (e : Erro),
      (transferir hash taxa st endereco dados).1 = .error e →
      (transferir hash taxa st endereco dados).2 = st) := by
  refine ⟨?_, ?_, ?_, ?_⟩ <;> intro dados e
  · unfold depositar
    cases resolver_moeda st dados.codigo_moeda <;> simp
  · unfold sacar
    cases buscar_por_endereco st endereco with
    | none => simp
    | some c =>
      by_cases hk : c.hash_chave_privada ≠ hash dados.chave_privada
      · simp [hk]
      · simp only [if_neg hk]
        cases resolver_moeda st dados.codigo_moeda with
        | none => simp
        | some id_moeda =>
          by_cases hlt : buscar_saldo_especifico st endereco id_moeda <
              dados.valor + dados.valor * taxa
          · simp [hlt]
          · simp [hlt]
  · unfold converter
    cases buscar_por_endereco st endereco with
    | none => simp
    | some c =>
      by_cases hk : c.hash_chave_privada ≠ hash dados.chave_privada
      · simp [hk]
      · simp only [if_neg hk]
        cases resolver_moeda st dados.moeda_origem with
        | none => simp
        | some id_origem =>
          cases resolver_moeda st dados.moeda_destino with
          | none => simp
          | some id_destino =>
            cases cot dados.moeda_origem.toUpper dados.moeda_destino.toUpper with
            | none => simp
            | some cotacao =>
              by_cases hlt : buscar_saldo_especifico st endereco id_origem <
                  dados.valor + dados.valor * taxa
              · simp [hlt]
              · simp [hlt]
  · unfold transferir
    cases buscar_por_endereco st endereco with
    | none => simp
    | some c =>
      by_cases hk : c.hash_chave_privada ≠ hash dados.chave_privada
      · simp [hk]
      · simp only [if_neg hk]
        by_cases hself : endereco = dados.endereco_destino
        · simp [hself]
        · simp only [if_neg hself]
          cases buscar_por_endereco st dados.endereco_destino with
          | none => simp
          | some d =>
            by_cases hst : d.status ≠ "ATIVA"
            · simp [hst]
            · simp only [if_neg hst]
              cases resolver_moeda st dados.codigo_moeda with
              | none => simp
              | some id_moeda =>
                by_cases hlt : buscar_saldo_especifico st endereco id_moeda <
                    dados.valor + dados.valor * taxa
                · simp [hlt]
                · simp [hlt]

/-- C8 witness: four concrete failing calls — a deposit in an unknown
currency, a withdrawal with a wrong key, a conversion whose quote
lookup fails and a self-transfer — each leave `stBase` unchanged. -/
theorem falhas_preservam_estado_witness :
    (depositar stBase "w1" ⟨"XXX", 5⟩).2 = stBase ∧
    (sacar hashConcat TAXA_SAQUE_PADRAO stBase "w1" ⟨"USD", 10, "bad"⟩).2 = stBase ∧
    (converter hashConcat cotacaoFalha TAXA_CONVERSAO_PADRAO stBase "w1"
      ⟨"USD", "EUR", 10, "k1"⟩).2 = stBase ∧
    (transferir hashConcat TAXA_TRANSFERENCIA_PADRAO stBase "w1"
      ⟨"w1", "USD", 10, "k1"⟩).2 = stBase := by
  have h1 := falhas_preservam_estado hashConcat cotacaoFalha TAXA_SAQUE_PADRAO stBase "w1"
  have h2 := falhas_preservam_estado hashConcat cotacaoFalha TAXA_CONVERSAO_PADRAO stBase
    "w1"
  have h3 := falhas_preservam_estado hashConcat cotacaoFalha TAXA_TRANSFERENCIA_PADRAO
    stBase "w1"
  exact ⟨h1.1 ⟨"XXX", 5⟩ .moedaInvalida
      (by simp [depositar, stBase, resolver_moeda, buscar_id_moeda, achar_moeda]),
    h1.2.1 ⟨"USD", 10, "bad"⟩ .chaveInvalida
      (by simp [sacar, stBase, hashConcat, buscar_por_endereco, achar_carteira]),
    h2.2.2.1 ⟨"USD", "EUR", 10, "k1"⟩ .erroCotacao
      (by simp [converter, stBase, hashConcat, cotacaoFalha, buscar_por_endereco,
        achar_carteira, resolver_moeda, buscar_id_moeda, achar_moeda]),
    h3.2.2.2 ⟨"w1", "USD", 10, "k1"⟩ .transferenciaPropria
      (by simp [transferir, stBase, hashConcat, buscar_por_endereco, achar_carteira])⟩

/-- Concrete state for the concurrency scenario: one wallet w1 holding
exactly 10 USD — sufficient for one withdrawal of 5 at the default 1%
fee (required 5.05) but not for two (10.10). -/
def stCorrida : Banco :=
  { carteiras := [⟨"w1", "ATIVA", "h-k1"⟩]
    moedas := [("USD", 1)]
    saldos := [(("w1", 1), 10)]
    movimentos := []
    conversoes := []
    transferencias := []
    prox_id_movimento := 1
    prox_id_conversao := 1
    prox_id_transferencia := 1 }

/-- C9: the check-then-act race evaluated on the code.  The sufficiency
check `sacar` performs reads the balance in a separate step from the
debit, with no lock: the check against `stCorrida` passes (10 ≥ 5.05),
so two interleaved withdrawals that both check before either debits
both pass it; committing both debits (`realizar_saque` is an
unconditional UPDATE) overdraws the balance to −0.1 < 0.  A serialized
execution instead gives one success and one InsufficientFunds. -/
theorem saque_concorrente_sofre_overdraft :
    (¬ buscar_saldo_especifico stCorrida "w1" 1 < 5 + 5 * TAXA_SAQUE_PADRAO) ∧
    buscar_saldo_especifico
      ((realizar_saque ((realizar_saque stCorrida "w1" 1 5 (5 * TAXA_SAQUE_PADRAO)).2)
        "w1" 1 5 (5 * TAXA_SAQUE_PADRAO)).2) "w1" 1 < 0 ∧
    (sacar hashConcat TAXA_SAQUE_PADRAO stCorrida "w1" ⟨"USD", 5, "k1"⟩).1.isOk = true ∧
    (sacar hashConcat TAXA_SAQUE_PADRAO
      ((sacar hashConcat TAXA_SAQUE_PADRAO stCorrida "w1" ⟨"USD", 5, "k1"⟩).2)
      "w1" ⟨"USD", 5, "k1"⟩).1 = .error .saldoInsuficiente := by
  refine ⟨?_, ?_, ?_, ?_⟩ <;>
    (simp [sacar, stCorrida, hashConcat, buscar_por_endereco, achar_carteira,
      resolver_moeda, buscar_id_moeda, achar_moeda, buscar_saldo_especifico, lookup_saldo,
      realizar_saque, update_saldo, TAXA_SAQUE_PADRAO, Except.isOk, Except.toBool] ;
     norm_num [lookup_saldo, update_saldo, buscar_por_endereco, achar_carteira,
       resolver_moeda, buscar_id_moeda, achar_moeda, Except.isOk, Except.toBool])

/-- C10: `depositar` performs no wallet-existence check and no key
verification: for every address and every request whose currency
resolves, it records the movement and upserts the balance by the
requested amount; its only checked failure is an unresolved currency. -/
theorem depositar_sem_verificacoes (st : Banco) (endereco : String)
    (dados : OperacaoDeposito) :
    (∀ id_moeda, resolver_moeda st dados.codigo_moeda = some id_moeda →
      (depositar st endereco dados).1 =
        .ok ⟨st.prox_id_movimento, "DEPOSITO", dados.valor, 0,
             buscar_saldo_especifico st endereco id_moeda + dados.valor⟩ ∧
      (depositar st endereco dados).2.movimentos = st.movimentos ++
        [⟨st.prox_id_movimento, endereco, id_moeda, "DEPOSITO", dados.valor, 0⟩] ∧
      buscar_saldo_especifico (depositar st endereco dados).2 endereco id_moeda =
        buscar_saldo_especifico st endereco id_moeda + dados.valor) ∧
    (resolver_moeda st dados.codigo_moeda = none →
      depositar st endereco dados = (.error .moedaInvalida, st)) := by
  refine ⟨?_, fun h => by simp [depositar, h]⟩
  intro id_moeda hm
  refine ⟨?_, ?_, ?_⟩ <;>
    simp only [depositar, hm, realizar_deposito, buscar_saldo_especifico,
      lookup_upsert_saldo_self]

/-- C10 witness: the address ghost has no wallet in `stBase`, yet a
deposit of 5 USD to it succeeds, appends the movement and creates the
balance row 5. -/
theorem depositar_sem_verificacoes_witness :
    buscar_por_endereco stBase "ghost" = none ∧
    (depositar stBase "ghost" ⟨"USD", 5⟩).1 =
      .ok ⟨1, "DEPOSITO", 5, 0, 0 + 5⟩ ∧
    buscar_saldo_especifico (depositar stBase "ghost" ⟨"USD", 5⟩).2 "ghost" 1 = 0 + 5 := by
  have hsal : buscar_saldo_especifico stBase "ghost" 1 = 0 := by
    simp [buscar_saldo_especifico, stBase, lookup_saldo]
  have h := (depositar_sem_verificacoes stBase "ghost" ⟨"USD", 5⟩).1 1 (by decide)
  refine ⟨by decide, ?_, ?_⟩
  · rw [h.1, hsal]; rfl
  · rw [h.2.2, hsal]

end CarteiraDigital
